import Mathlib

/-!
A verification development for the mulligan card-statistics tool
(src/mulligan.py). The tool reads a track-o-bot game history, filters the
games by the own deck archetype and an opponent archetype, and for each card
of a supplied deck list counts eligible plays (played by the own player,
card name among the values of the card field map of a play entry, turn
number at most a configurable ceiling max_turn).

The embedding translates the Python methods of class Mulligan into Lean
functions. Python dictionaries become structures; the values() view of the
card field map of a play entry becomes a list of strings; Python integers
become Int; a method that returns either a value or False becomes an
Option; a method that raises becomes an Except. Methods that only perform
input and output (reading files, talking to track-o-bot, printing, writing
spreadsheets) are outside the embedding; the claims only concern the pure
computation.
-/

/-- One entry of the card_history list of a game: the acting player
("me" or "opponent"), the values of the card field map (the Python code
tests membership with: card in cards["card"].values()), and the turn the
card was played on. -/
structure CardEntry where
  player : String
  card : List String
  turn : Int
deriving DecidableEq, Repr

/-- One game of the track-o-bot history; only the fields the class reads. -/
structure Game where
  hero : String
  hero_deck : String
  opponent : String
  opponent_deck : String
  result : String
  card_history : List CardEntry
deriving DecidableEq, Repr

/-- The state of a Mulligan object: the history pages, the own deck type
as a pair (deck, hero), the opponent archetype pairs, the deck list under
evaluation, and the turn ceiling max_turn. -/
structure Mulligan where
  data : List (List Game)
  deck_type : String × String
  opponent_deck_type_tuples_list : List (String × String)
  deck_list : List String
  max_turn : Int
deriving DecidableEq, Repr

/-- Constructor Mulligan.__init__, restricted to its pure part: the pages
are taken as already loaded (the .json and track-o-bot branches are file
and network input), the opponent list is taken as given, and the check
that the deck list is non-empty is kept: an empty deck list raises a
TypeError, modelled as an error result. On success max_turn is 9999. -/
def Mulligan.init (pages : List (List Game)) (deck_type : String × String)
    (opponent_deck_type_tuples_list : List (String × String))
    (deck_list : List String) : Except String Mulligan :=
  if deck_list.isEmpty then
    Except.error "From mulligan.__init__: misuse of variable. Please insert at least one card to evaluate."
  else
    Except.ok { data := pages, deck_type := deck_type,
                opponent_deck_type_tuples_list := opponent_deck_type_tuples_list,
                deck_list := deck_list, max_turn := 9999 }

/-- Method set_max_turn: stores the new ceiling when it is positive and
raises a TypeError otherwise. Raising is modelled as an error result, so
no updated state is produced and the old state is untouched. -/
def Mulligan.set_max_turn (m : Mulligan) (max_turn : Int) : Except String Mulligan :=
  if max_turn > 0 then
    Except.ok { m with max_turn := max_turn }
  else
    Except.error "From mulligan.setMaxTurn(): The maximum turn must be a positive integer!"

/-- The eligibility test of the inner loops of find_card and times_played:
the play is by "me", the card is among the values of the card field map,
and the turn is at most max_turn. -/
def eligiblePlay (max_turn : Int) (card : String) (c : CardEntry) : Bool :=
  c.player == "me" && c.card.contains card && decide (c.turn ≤ max_turn)

/-- Method find_card: returns the game if some card_history entry is an
eligible play of the card, else False (modelled: none). -/
def Mulligan.find_card (m : Mulligan) (card : String) (game : Game) : Option Game :=
  if game.card_history.any (eligiblePlay m.max_turn card) then some game else none

/-- Method find_hero_deck: the games of all pages, in page order, whose
hero and hero_deck fields match. -/
def Mulligan.find_hero_deck (pages : List (List Game)) (hero : String)
    (hero_deck : String) : List Game :=
  pages.flatten.filter (fun game => game.hero == hero && game.hero_deck == hero_deck)

/-- Method find_opponent_deck: the games of the page, in order, whose
opponent and opponent_deck fields match. -/
def Mulligan.find_opponent_deck (page : List Game) (opponent : String)
    (opponent_deck : String) : List Game :=
  page.filter (fun game => game.opponent == opponent && game.opponent_deck == opponent_deck)

/-- Method times_played: over all given games, counts the card_history
entries that are eligible plays of the card. -/
def Mulligan.times_played (m : Mulligan) (card : String) (valid_games : List Game) : Nat :=
  (valid_games.map (fun game => game.card_history.countP (eligiblePlay m.max_turn card))).sum

/-- Method count_wins: the number of games whose result is "win". -/
def Mulligan.count_wins (games : List Game) : Nat :=
  games.countP (fun game => game.result == "win")

/-- Method find_games_with_card: keeps, in order, the games for which
find_card succeeds (the loop appends the value find_card returns, which is
the game itself). -/
def Mulligan.find_games_with_card (m : Mulligan) (card : String)
    (games : List Game) : List Game :=
  games.filterMap (fun game => m.find_card card game)

/-- The per-card record produced by evaluate_deck_list. -/
structure CardResult where
  card : String
  number_of_wins_with_card : Nat
  number_of_games_with_card : Nat
  times_played : Nat
deriving DecidableEq, Repr

/-- Method evaluate_deck_list: one record per card of the deck list, in
order; the wins and the length are taken over the games with the card, and
times played is counted over that same filtered list. -/
def Mulligan.evaluate_deck_list (m : Mulligan) (deck_list : List String)
    (games : List Game) : List CardResult :=
  deck_list.map (fun card =>
    let games_with_card_played := m.find_games_with_card card games
    { card := card,
      number_of_wins_with_card := Mulligan.count_wins games_with_card_played,
      number_of_games_with_card := games_with_card_played.length,
      times_played := m.times_played card games_with_card_played })

/-- The per-matchup record produced by evaluate. -/
structure MatchupResult where
  opponent : String
  opponent_deck : String
  number_of_games : Nat
  number_of_wins : Nat
  cards_evaluated : List CardResult
deriving DecidableEq, Repr

/-- Method evaluate: selects the games of the own deck, then emits, for
each opponent archetype pair in list order, the matchup record over the
games against that archetype. -/
def Mulligan.evaluate (m : Mulligan) : List MatchupResult :=
  let valid_games := Mulligan.find_hero_deck m.data m.deck_type.2 m.deck_type.1
  m.opponent_deck_type_tuples_list.map (fun deck_types =>
    let games_vs_opponent := Mulligan.find_opponent_deck valid_games deck_types.2 deck_types.1
    { opponent := deck_types.2, opponent_deck := deck_types.1,
      number_of_games := games_vs_opponent.length,
      number_of_wins := Mulligan.count_wins games_vs_opponent,
      cards_evaluated := m.evaluate_deck_list m.deck_list games_vs_opponent })

/-- A concrete game used to instantiate the theorems: a win with the own
Miracle Rogue deck against Aggro Shaman in which "Coin" is played twice by
the own player and once a card is played by the opponent. -/
def g1 : Game :=
  { hero := "Rogue", hero_deck := "Miracle", opponent := "Shaman", opponent_deck := "Aggro",
    result := "win",
    card_history :=
      [ { player := "me", card := ["Coin"], turn := 1 },
        { player := "me", card := ["Coin"], turn := 2 },
        { player := "opponent", card := ["Bolt"], turn := 2 } ] }

/-- A concrete Mulligan state over the single game g1, with a duplicated
opponent archetype pair. -/
def mEx : Mulligan :=
  { data := [[g1]], deck_type := ("Miracle", "Rogue"),
    opponent_deck_type_tuples_list := [("Aggro", "Shaman"), ("Aggro", "Shaman")],
    deck_list := ["Coin"], max_turn := 9999 }

/-- The card record that evaluate_deck_list produces for "Coin" over [g1]. -/
def cr1 : CardResult :=
  { card := "Coin", number_of_wins_with_card := 1,
    number_of_games_with_card := 1, times_played := 2 }

/-- The matchup record that evaluate produces for ("Aggro", "Shaman") on mEx. -/
def res1 : MatchupResult :=
  { opponent := "Shaman", opponent_deck := "Aggro", number_of_games := 1,
    number_of_wins := 1, cards_evaluated := [cr1] }

/-- The eligibility test of a whole card_history, spelled as an existential:
some entry is a play by "me" of the card at a turn within the ceiling. -/
theorem any_eligible_iff (t : Int) (card : String) (cs : List CardEntry) :
    cs.any (eligiblePlay t card) = true
      ↔ ∃ c ∈ cs, c.player = "me" ∧ card ∈ c.card ∧ c.turn ≤ t := by
  simp [List.any_eq_true, eligiblePlay, and_assoc]

/-- The loop of find_games_with_card keeps exactly the games with an
eligible play, in input order. -/
theorem find_games_with_card_eq_filter (m : Mulligan) (card : String) (games : List Game) :
    m.find_games_with_card card games
      = games.filter (fun game => game.card_history.any (eligiblePlay m.max_turn card)) := by
  unfold Mulligan.find_games_with_card Mulligan.find_card
  induction games with
  | nil => rfl
  | cons g gs ih =>
    rw [List.filterMap_cons, List.filter_cons]
    by_cases h : g.card_history.any (eligiblePlay m.max_turn card)
    · rw [if_pos h, if_pos h, ih]
    · rw [if_neg h, if_neg h, ih]

/-- Unfolding of times_played on a cons cell. -/
theorem times_played_cons (m : Mulligan) (card : String) (g : Game) (gs : List Game) :
    m.times_played card (g :: gs)
      = g.card_history.countP (eligiblePlay m.max_turn card) + m.times_played card gs := by
  simp [Mulligan.times_played]

/-- Restricting the count to the games that contain an eligible play does
not change it: the discarded games contribute zero plays. -/
theorem times_played_filtered (m : Mulligan) (card : String) (games : List Game) :
    m.times_played card (m.find_games_with_card card games) = m.times_played card games := by
  rw [find_games_with_card_eq_filter]
  induction games with
  | nil => rfl
  | cons g gs ih =>
    by_cases h : g.card_history.any (eligiblePlay m.max_turn card)
    · simp only [List.filter_cons, h, if_true, times_played_cons, ih]
    · have hz : g.card_history.countP (eligiblePlay m.max_turn card) = 0 := by
        rw [List.countP_eq_zero]
        simpa using h
      simp only [List.filter_cons, h, if_false, times_played_cons, ih, hz,
        Bool.false_eq_true, Nat.zero_add]

/-- A list in which every element scores at least one is no longer than
the sum of the scores. -/
theorem length_le_sum_of_pos (f : Game → Nat) (l : List Game)
    (h : ∀ g ∈ l, 0 < f g) : l.length ≤ (l.map f).sum := by
  induction l with
  | nil => simp
  | cons g gs ih =>
    simp only [List.length_cons, List.map_cons, List.sum_cons]
    have h1 := h g (by simp)
    have h2 := ih (fun x hx => h x (by simp [hx]))
    omega

/-- Claim C1: for every card of the deck list, the times played value of
its record in the result of evaluate_deck_list is the total number of
eligible plays of that card summed across ALL given matches, counting
every eligible play even when a card is played several times in one match. -/
theorem times_played_counts_all_matches (m : Mulligan) (deck_list : List String)
    (games : List Game) :
    ∀ r ∈ m.evaluate_deck_list deck_list games,
      r.times_played
        = (games.map (fun game =>
            game.card_history.countP (eligiblePlay m.max_turn r.card))).sum := by
  intro r hr
  simp only [Mulligan.evaluate_deck_list, List.mem_map] at hr
  obtain ⟨card, _, rfl⟩ := hr
  exact times_played_filtered m card games

/-- Claim C1 witness: on the concrete state mEx, the record of "Coin" over
the single game g1 reports two plays, the total over all matches. -/
theorem times_played_counts_all_matches_witness :
    cr1.times_played
      = ([g1].map (fun game =>
          game.card_history.countP (eligiblePlay mEx.max_turn cr1.card))).sum :=
  times_played_counts_all_matches mEx ["Coin"] [g1] cr1 (by decide)

/-- Claim C3: find_card returns the game exactly when some card_history
entry is a play by "me" of the target card at a turn at most max_turn, and
returns the failure value otherwise; plays by the opponent and plays after
max_turn never count. -/
theorem find_card_iff_eligible_play (m : Mulligan) (card : String) (game : Game) :
    (m.find_card card game = some game
      ↔ ∃ c ∈ game.card_history, c.player = "me" ∧ card ∈ c.card ∧ c.turn ≤ m.max_turn)
    ∧ (m.find_card card game = none
      ↔ ¬∃ c ∈ game.card_history, c.player = "me" ∧ card ∈ c.card ∧ c.turn ≤ m.max_turn) := by
  unfold Mulligan.find_card
  by_cases h : game.card_history.any (eligiblePlay m.max_turn card)
  · rw [if_pos h]
    rw [any_eligible_iff] at h
    simp [h]
  · rw [if_neg h]
    have h2 : ¬∃ c ∈ game.card_history,
        c.player = "me" ∧ card ∈ c.card ∧ c.turn ≤ m.max_turn := by
      rw [← any_eligible_iff (t := m.max_turn)]
      exact h
    simp [h2]

/-- Claim C4: filtering by the own deck archetype and then by the opponent
archetype equals the single combined two-predicate filter over the
flattened pages, and also equals applying the opponent filter first and
the own deck filter second; order of the input games is preserved in all
three forms. -/
theorem deck_filters_commute (pages : List (List Game))
    (hero hero_deck opponent opponent_deck : String) :
    Mulligan.find_opponent_deck (Mulligan.find_hero_deck pages hero hero_deck)
        opponent opponent_deck
      = pages.flatten.filter (fun game =>
          (game.hero == hero && game.hero_deck == hero_deck)
            && (game.opponent == opponent && game.opponent_deck == opponent_deck))
    ∧ Mulligan.find_opponent_deck (Mulligan.find_hero_deck pages hero hero_deck)
        opponent opponent_deck
      = Mulligan.find_hero_deck
          [Mulligan.find_opponent_deck pages.flatten opponent opponent_deck]
          hero hero_deck := by
  unfold Mulligan.find_opponent_deck Mulligan.find_hero_deck
  constructor
  · rw [List.filter_filter]
    apply List.filter_congr
    intro g _
    rw [Bool.and_comm]
  · rw [List.filter_filter, List.flatten, List.flatten, List.append_nil,
      List.filter_filter]
    apply List.filter_congr
    intro g _
    rw [Bool.and_comm]

/-- Claim C5: evaluate returns exactly one matchup record per entry of the
opponent archetype list, in list order: the record at position i carries
the opponent fields of the pair at position i, and equal pairs at two
positions yield equal records, so a duplicated pair produces two
independent records with identical content; nothing is sorted or
deduplicated. -/
theorem evaluate_one_record_per_opponent (m : Mulligan) :
    m.evaluate.length = m.opponent_deck_type_tuples_list.length
    ∧ (∀ i (hi : i < m.opponent_deck_type_tuples_list.length)
        (hi2 : i < m.evaluate.length),
        (m.evaluate.get ⟨i, hi2⟩).opponent
            = (m.opponent_deck_type_tuples_list.get ⟨i, hi⟩).2
          ∧ (m.evaluate.get ⟨i, hi2⟩).opponent_deck
            = (m.opponent_deck_type_tuples_list.get ⟨i, hi⟩).1)
    ∧ (∀ i j (hi : i < m.opponent_deck_type_tuples_list.length)
        (hj : j < m.opponent_deck_type_tuples_list.length)
        (hi2 : i < m.evaluate.length) (hj2 : j < m.evaluate.length),
        m.opponent_deck_type_tuples_list.get ⟨i, hi⟩
            = m.opponent_deck_type_tuples_list.get ⟨j, hj⟩ →
          m.evaluate.get ⟨i, hi2⟩ = m.evaluate.get ⟨j, hj2⟩) := by
  refine ⟨?_, ?_, ?_⟩
  · simp [Mulligan.evaluate]
  · intro i hi hi2
    simp [Mulligan.evaluate, List.get_eq_getElem, List.getElem_map]
  · intro i j hi hj hi2 hj2 hij
    simp only [Mulligan.evaluate, List.get_eq_getElem, List.getElem_map]
    rw [List.get_eq_getElem, List.get_eq_getElem] at hij
    rw [hij]

/-- Claim C5 witness: on the concrete state mEx, whose opponent list holds
the pair ("Aggro", "Shaman") twice, the first record carries that pair and
the two records are identical. -/
theorem evaluate_one_record_per_opponent_witness :
    (mEx.evaluate.length = mEx.opponent_deck_type_tuples_list.length)
    ∧ ((mEx.evaluate.get ⟨0, by decide⟩).opponent
          = (mEx.opponent_deck_type_tuples_list.get ⟨0, by decide⟩).2
        ∧ (mEx.evaluate.get ⟨0, by decide⟩).opponent_deck
          = (mEx.opponent_deck_type_tuples_list.get ⟨0, by decide⟩).1)
    ∧ mEx.evaluate.get ⟨0, by decide⟩ = mEx.evaluate.get ⟨1, by decide⟩ :=
  ⟨(evaluate_one_record_per_opponent mEx).1,
   (evaluate_one_record_per_opponent mEx).2.1 0 (by decide) (by decide),
   (evaluate_one_record_per_opponent mEx).2.2 0 1 (by decide) (by decide)
     (by decide) (by decide) (by decide)⟩

/-- Claim C6: for a fixed card and a fixed list of matches the times
played count is monotone in the turn ceiling: a strictly smaller max_turn
yields a count at most the count under the larger one. -/
theorem times_played_monotone_in_max_turn (m : Mulligan) (t1 t2 : Int)
    (h : t1 < t2) (card : String) (games : List Game) :
    ({ m with max_turn := t1 } : Mulligan).times_played card games
      ≤ ({ m with max_turn := t2 } : Mulligan).times_played card games := by
  unfold Mulligan.times_played
  apply List.sum_le_sum
  intro g _
  apply List.countP_mono_left
  intro c _ hc
  unfold eligiblePlay at hc ⊢
  simp only [Bool.and_eq_true, decide_eq_true_eq] at hc ⊢
  exact ⟨hc.1, le_trans hc.2 (le_of_lt h)⟩

/-- Claim C6 witness: on the concrete state mEx, the count of "Coin" plays
in g1 under ceiling 1 is at most the count under ceiling 2. -/
theorem times_played_monotone_in_max_turn_witness :
    ({ mEx with max_turn := 1 } : Mulligan).times_played "Coin" [g1]
      ≤ ({ mEx with max_turn := 2 } : Mulligan).times_played "Coin" [g1] :=
  times_played_monotone_in_max_turn mEx 1 2 (by decide) "Coin" [g1]

/-- Claim C7: in every record of evaluate_deck_list the times played count
is at least the number of games with the card: every game kept by
find_games_with_card contributes at least one eligible play. -/
theorem times_played_ge_games_with_card (m : Mulligan) (deck_list : List String)
    (games : List Game) :
    ∀ r ∈ m.evaluate_deck_list deck_list games,
      r.number_of_games_with_card ≤ r.times_played := by
  intro r hr
  simp only [Mulligan.evaluate_deck_list, List.mem_map] at hr
  obtain ⟨card, _, rfl⟩ := hr
  apply length_le_sum_of_pos
  intro g hg
  rw [find_games_with_card_eq_filter] at hg
  have hp := List.of_mem_filter hg
  rw [List.countP_pos_iff]
  simpa [List.any_eq_true] using hp

/-- Claim C7 witness: on the concrete state mEx, the record of "Coin" over
g1 has one game with the card and two plays. -/
theorem times_played_ge_games_with_card_witness :
    cr1.number_of_games_with_card ≤ cr1.times_played :=
  times_played_ge_games_with_card mEx ["Coin"] [g1] cr1 (by decide)

/-- Claim C2 counterexample: evaluate_deck_list performs no validation of
the card list: called with an empty card list on a non-empty list of
matches it returns the empty result list instead of raising an error. -/
theorem evaluate_deck_list_empty_cards_no_error :
    mEx.evaluate_deck_list [] [g1] = [] := rfl

/-- Claim C2 amended: only the constructor rejects an empty card list:
Mulligan.__init__ with an empty deck list raises an error for every choice
of the other arguments, while evaluate_deck_list with an empty card list
returns the empty result list for every state and every list of matches. -/
theorem init_rejects_empty_deck_list (pages : List (List Game))
    (deck_type : String × String) (opponents : List (String × String))
    (m : Mulligan) (games : List Game) :
    Mulligan.init pages deck_type opponents []
        = Except.error "From mulligan.__init__: misuse of variable. Please insert at least one card to evaluate."
      ∧ m.evaluate_deck_list [] games = [] :=
  ⟨rfl, rfl⟩

/-- Claim C8: set_max_turn succeeds exactly on positive arguments, storing
the argument as the new ceiling, and raises an error on a non-positive
argument; since the error carries no new state, the old state with its old
max_turn is untouched. -/
theorem set_max_turn_positive_iff (m : Mulligan) (t : Int) :
    (0 < t → m.set_max_turn t = Except.ok { m with max_turn := t })
    ∧ (t ≤ 0 → m.set_max_turn t
        = Except.error "From mulligan.setMaxTurn(): The maximum turn must be a positive integer!") := by
  constructor
  · intro h
    unfold Mulligan.set_max_turn
    rw [if_pos h]
  · intro h
    unfold Mulligan.set_max_turn
    rw [if_neg (not_lt.mpr h)]

/-- Claim C8 witness: on the concrete state mEx, setting the ceiling to 5
succeeds and stores 5, and setting it to 0 raises the error. -/
theorem set_max_turn_positive_iff_witness :
    mEx.set_max_turn 5 = Except.ok { mEx with max_turn := 5 }
    ∧ mEx.set_max_turn 0
      = Except.error "From mulligan.setMaxTurn(): The maximum turn must be a positive integer!" :=
  ⟨(set_max_turn_positive_iff mEx 5).1 (by decide),
   (set_max_turn_positive_iff mEx 0).2 (by decide)⟩

/-- Claim C9: over an empty list of matches, evaluate_deck_list on a
non-empty card list succeeds and returns one all-zero record per card. -/
theorem evaluate_deck_list_empty_matches_zero (m : Mulligan)
    (deck_list : List String) (h : deck_list ≠ []) :
    m.evaluate_deck_list deck_list []
      = deck_list.map (fun card =>
          { card := card, number_of_wins_with_card := 0,
            number_of_games_with_card := 0, times_played := 0 }) := rfl

/-- Claim C9 witness: on the concrete state mEx, the deck list with the
single card "Coin" over no matches yields one all-zero record. -/
theorem evaluate_deck_list_empty_matches_zero_witness :
    mEx.evaluate_deck_list ["Coin"] []
      = [{ card := "Coin", number_of_wins_with_card := 0,
           number_of_games_with_card := 0, times_played := 0 }] :=
  evaluate_deck_list_empty_matches_zero mEx ["Coin"] (by decide)

/-- Claim C10: in every matchup record of evaluate the wins are at most
the games of the matchup, and in every card record the wins with the card
are at most the games with the card, which are at most the games of the
matchup; the lower bound zero is immediate since all counts are natural
numbers. -/
theorem evaluate_counts_bounded (m : Mulligan) :
    ∀ res ∈ m.evaluate,
      res.number_of_wins ≤ res.number_of_games
      ∧ ∀ r ∈ res.cards_evaluated,
          r.number_of_wins_with_card ≤ r.number_of_games_with_card
          ∧ r.number_of_games_with_card ≤ res.number_of_games := by
  intro res hres
  simp only [Mulligan.evaluate, List.mem_map] at hres
  obtain ⟨dt, _, rfl⟩ := hres
  constructor
  · exact List.countP_le_length _
  · intro r hr
    simp only [Mulligan.evaluate_deck_list, List.mem_map] at hr
    obtain ⟨card, _, rfl⟩ := hr
    exact ⟨List.countP_le_length _, List.length_filterMap_le _ _⟩

/-- Claim C10 witness: the bounds hold on the concrete matchup record res1
and its card record cr1 produced from mEx. -/
theorem evaluate_counts_bounded_witness :
    res1.number_of_wins ≤ res1.number_of_games
    ∧ cr1.number_of_wins_with_card ≤ cr1.number_of_games_with_card
    ∧ cr1.number_of_games_with_card ≤ res1.number_of_games :=
  ⟨(evaluate_counts_bounded mEx res1 (by decide)).1,
   ((evaluate_counts_bounded mEx res1 (by decide)).2 cr1 (by decide)).1,
   ((evaluate_counts_bounded mEx res1 (by decide)).2 cr1 (by decide)).2⟩
